import Mathlib

/-!
Verification of the authentication-synchronization and window-coordination
core of the Gemini-For-Desktop Electron application.

The definitions below are a shallow embedding of the relevant TypeScript
source (src/main/auth.ts, src/main/store.ts, src/main/windows/standard.ts,
src/main/windows/hud.ts, src/main/windows/auth-window.ts):

* cookie jars become lists of `Cookie` records, and Electron's
  `cookies.get {domain}` / `cookies.set` become `getCookiesForDomain` /
  `setCookie` (upsert keyed on name/domain/path);
* the per-cookie `try { await set } catch { }` of `copyAuthCookies` is
  modelled by a `fails : Cookie → Bool` oracle saying which individual
  writes throw;
* the event handlers of the window modules become functions from an
  explicit `AppState` to a new state paired with a trace of observable
  `Ev` events; the single-threaded event loop awaits every cookie write,
  so events appear in the trace in the order the corresponding operations
  resolve.
-/

namespace GeminiDesktop

/-! ### String helpers (substring and suffix tests used by the handlers) -/

/-- Boolean test that the first character list is an initial segment of the
second; used to implement the substring tests of `url.includes(...)`. -/
def charsPrefixOf : List Char → List Char → Bool
  | [], _ => true
  | _ :: _, [] => false
  | a :: as, b :: bs => a == b && charsPrefixOf as bs

/-- Boolean test that `needle` occurs contiguously inside `hay`. -/
def charsContains : List Char → List Char → Bool
  | [], needle => needle.isEmpty
  | h :: t, needle => charsPrefixOf needle (h :: t) || charsContains t needle

/-- Model of `s.includes(pat)`: `strContains s pat` models JavaScript's `s.includes(pat)`. -/
def strContains (s pat : String) : Bool :=
  charsContains s.toList pat.toList

/-- Test `strEndsWith s tail` is true when `s` ends with `tail`. -/
def strEndsWith (s tl : String) : Bool :=
  charsPrefixOf tl.toList.reverse s.toList.reverse

/-! ### Constants from the source -/

/-- Constant `GEMINI_URL` from standard.ts / hud.ts. -/
def GEMINI_URL : String := "https://gemini.google.com"

/-- Constant `SESSION_PARTITION` ('persist:gemini'): the spoofed partition used for
all normal traffic. -/
def SESSION_PARTITION : String := "persist:gemini"

/-- Constant `SIGNIN_PARTITION` ('persist:gemini-auth'): the clean partition used
only for identity-provider sign-in (auth-window.ts). -/
def SIGNIN_PARTITION : String := "persist:gemini-auth"

/-! ### Cookie data model -/

/-- Electron cookie sameSite values, as used in the cast inside
`copyAuthCookies`. -/
inductive SameSite where
  | unspecified
  | no_restriction
  | lax
  | strict
  deriving DecidableEq, Repr

/-- An Electron cookie as read by `cookies.get` and written back by
`cookies.set` in `copyAuthCookies`: the eight attributes the relay copies.
`expirationDate` is `none` for session cookies. -/
structure Cookie where
  name : String
  value : String
  domain : String
  path : String
  secure : Bool
  httpOnly : Bool
  expirationDate : Option Int
  sameSite : SameSite
  deriving DecidableEq, Repr

/-- Cookie identity within a partition: (name, domain, path). -/
def cookieKey (c : Cookie) : String × String × String :=
  (c.name, c.domain, c.path)

/-- Strip one leading '.' from a domain, as in
`cookie.domain?.replace(/^\./, '')`. -/
def stripLeadingDot (s : String) : String :=
  match s.toList with
  | '.' :: rest => String.mk rest
  | _ => s

/-- Electron's `cookies.get {domain: d}` domain filter: the cookie's domain
(ignoring a leading dot) equals the filter domain (ignoring a leading dot)
or is a subdomain of it. -/
def domainMatches (cookieDomain filterDomain : String) : Bool :=
  let cd := stripLeadingDot cookieDomain
  let fd := stripLeadingDot filterDomain
  cd == fd || strEndsWith cd ("." ++ fd)

/-- The domain filter `{ domain: '.google.com' }` passed to `cookies.get`
by both `checkSignedIn` and `copyAuthCookies`. -/
def GOOGLE_DOMAIN_FILTER : String := ".google.com"

/-- Electron `ses.cookies.get` with a domain filter: enumerate the cookies of a jar whose
domain matches the filter, in jar order. -/
def getCookiesForDomain (jar : List Cookie) (d : String) : List Cookie :=
  jar.filter (fun c => domainMatches c.domain d)

/-- Electron `ses.cookies.set` with the attributes passed by `copyAuthCookies`:
an upsert that replaces any cookie with the same (name, domain, path) and
stores the given cookie with all eight attributes intact. -/
def setCookie (jar : List Cookie) (c : Cookie) : List Cookie :=
  jar.filter
    (fun old => !(old.name == c.name && old.domain == c.domain && old.path == c.path))
    ++ [c]

/-- The `for (const cookie of cookies) { try { await set } catch { } }`
loop of `copyAuthCookies`: writes each enumerated cookie into the target
jar in order, skipping (jar unchanged) exactly the cookies whose write
throws. -/
def relayLoop (fails : Cookie → Bool) : List Cookie → List Cookie → List Cookie
  | toJar, [] => toJar
  | toJar, c :: rest =>
      relayLoop fails (if fails c then toJar else setCookie toJar c) rest

/-- Result of `copyAuthCookies`: the target (spoofed) jar after the loop,
plus the count the function reports in its
`console.log('[Auth] Copying N cookies')` message (the function itself
returns `Promise<void>`, so the logged length of the enumerated list is
its only reported count). -/
structure RelayResult where
  jar : List Cookie
  reportedCount : Nat
  deriving DecidableEq, Repr

/-- Embedding of `copyAuthCookies` from standard.ts: enumerate the clean partition's
cookies for '.google.com' and upsert each into the spoofed partition,
tolerating per-cookie failures. -/
def copyAuthCookies (fails : Cookie → Bool) (cleanJar spoofedJar : List Cookie) :
    RelayResult :=
  let cookies := getCookiesForDomain cleanJar GOOGLE_DOMAIN_FILTER
  { jar := relayLoop fails spoofedJar cookies
    reportedCount := cookies.length }

/-- Number of cookie writes of the relay that actually succeed. -/
def relaySuccesses (fails : Cookie → Bool) (cleanJar : List Cookie) : Nat :=
  (getCookiesForDomain cleanJar GOOGLE_DOMAIN_FILTER).countP (fun c => !(fails c))

/-! ### Lemmas about the relay -/

/-- A cookie already in the jar survives `setCookie` of a cookie with a
different (name, domain, path) key. -/
lemma mem_setCookie_of_ne (jar : List Cookie) (c d : Cookie)
    (hc : c ∈ jar) (hne : cookieKey d ≠ cookieKey c) :
    c ∈ setCookie jar d := by
  unfold setCookie
  refine List.mem_append_left _ (List.mem_filter.mpr ⟨hc, ?_⟩)
  simp only [Bool.not_eq_true']
  rw [Bool.eq_false_iff]
  intro h
  simp only [Bool.and_eq_true, beq_iff_eq] at h
  obtain ⟨⟨h1, h2⟩, h3⟩ := h
  exact hne (by simp [cookieKey, h1, h2, h3])

/-- The cookie just written is in the jar after `setCookie`. -/
lemma mem_setCookie_self (jar : List Cookie) (c : Cookie) :
    c ∈ setCookie jar c := by
  unfold setCookie
  exact List.mem_append_right _ (List.mem_singleton.mpr rfl)

/-- A cookie in the jar whose key differs from every cookie still to be
written survives the rest of the relay loop. -/
lemma mem_relayLoop_of_mem (fails : Cookie → Bool) (c : Cookie)
    (l : List Cookie) :
    ∀ toJar, c ∈ toJar → (∀ d ∈ l, cookieKey d ≠ cookieKey c) →
      c ∈ relayLoop fails toJar l := by
  induction l with
  | nil =>
      intro toJar hc _
      simpa [relayLoop] using hc
  | cons d rest ih =>
      intro toJar hc hkeys
      unfold relayLoop
      apply ih
      · by_cases hf : fails d = true
        · simpa [hf] using hc
        · simp only [Bool.not_eq_true] at hf
          simp only [hf, Bool.false_eq_true, if_false]
          exact mem_setCookie_of_ne toJar c d hc (hkeys d (List.mem_cons_self d rest))
      · intro e he
        exact hkeys e (List.mem_cons_of_mem d he)

/-- Any enumerated cookie whose write does not fail is in the jar produced
by the relay loop, provided the enumerated cookies have pairwise distinct
(name, domain, path) keys. -/
lemma relayLoop_mem_of_enum (fails : Cookie → Bool) (c : Cookie)
    (hok : fails c = false) (l : List Cookie) :
    (l.map cookieKey).Nodup → c ∈ l → ∀ toJar, c ∈ relayLoop fails toJar l := by
  induction l with
  | nil =>
      intro _ hc
      cases hc
  | cons d rest ih =>
      intro hnodup hc toJar
      simp only [List.map_cons, List.nodup_cons] at hnodup
      rcases List.mem_cons.mp hc with rfl | hmem
      · unfold relayLoop
        simp only [hok, Bool.false_eq_true, if_false]
        apply mem_relayLoop_of_mem
        · exact mem_setCookie_self toJar c
        · intro e he heq
          have hmem2 : cookieKey c ∈ rest.map cookieKey := by
            rw [← heq]
            exact List.mem_map_of_mem cookieKey he
          exact hnodup.1 hmem2
      · unfold relayLoop
        exact ih hnodup.2 hmem _

/-! ### Claim theorems about the relay (C2, C9) -/

/-- A concrete Google auth cookie, used as evaluation input. -/
def sidCookie : Cookie :=
  { name := "SID"
    value := "v-123"
    domain := ".google.com"
    path := "/"
    secure := true
    httpOnly := false
    expirationDate := some 1926000000
    sameSite := SameSite.no_restriction }

/-- C2: after a relay from the clean partition to the spoofed partition for
the identity-provider domain, every cookie enumerated from the clean
partition for that domain whose write succeeds is present — with identical
name, value, domain, path, secure, httpOnly, sameSite and expirationDate —
in the spoofed partition (membership of the very same `Cookie` record means
all eight attributes coincide). The hypothesis that enumerated cookies have
pairwise distinct (name, domain, path) keys is the jar well-formedness
Electron guarantees. -/
theorem cookie_relay_fidelity (fails : Cookie → Bool)
    (cleanJar spoofedJar : List Cookie)
    (hnodup : ((getCookiesForDomain cleanJar GOOGLE_DOMAIN_FILTER).map cookieKey).Nodup)
    (c : Cookie) (hc : c ∈ getCookiesForDomain cleanJar GOOGLE_DOMAIN_FILTER)
    (hok : fails c = false) :
    c ∈ (copyAuthCookies fails cleanJar spoofedJar).jar := by
  unfold copyAuthCookies
  exact relayLoop_mem_of_enum fails c hok _ hnodup hc spoofedJar

/-- Witness for C2 at a concrete input: one SID cookie in the clean jar, no
write failures; after the relay the identical cookie is in the spoofed jar. -/
theorem cookie_relay_fidelity_witness :
    (((getCookiesForDomain [sidCookie] GOOGLE_DOMAIN_FILTER).map cookieKey).Nodup ∧
      sidCookie ∈ getCookiesForDomain [sidCookie] GOOGLE_DOMAIN_FILTER) ∧
    sidCookie ∈ (copyAuthCookies (fun _ => false) [sidCookie] []).jar :=
  ⟨⟨by decide, by decide⟩,
    cookie_relay_fidelity (fun _ => false) [sidCookie] [] (by decide) sidCookie
      (by decide) rfl⟩

/-- C9: the count the relay reports (the logged `cookies.length`) equals
the number of cookies enumerated from the clean partition for the
identity-provider domain — the number attempted — and is in general not the
number of successful writes: at a concrete input where the single write
fails, the reported count is 1 while 0 writes succeeded. -/
theorem relay_reports_attempted_count :
    (∀ (fails : Cookie → Bool) (cleanJar spoofedJar : List Cookie),
        (copyAuthCookies fails cleanJar spoofedJar).reportedCount =
          (getCookiesForDomain cleanJar GOOGLE_DOMAIN_FILTER).length) ∧
    ((copyAuthCookies (fun _ => true) [sidCookie] []).reportedCount = 1 ∧
      relaySuccesses (fun _ => true) [sidCookie] = 0) := by
  refine ⟨fun fails cleanJar spoofedJar => rfl, by decide, by decide⟩

/-! ### Window roles, observable events and application state

The three window roles of the coordinator, the observable events the
window-module code emits (ordered by the moment the corresponding awaited
operation resolves on the single-threaded event loop), and the
module-level mutable state of standard.ts and hud.ts. -/

/-- The three window roles. -/
inductive Role where
  | primary
  | overlay
  | signIn
  deriving DecidableEq, Repr

/-- Observable events of the window modules. `cookieSetAttempt c` is the
resolution of one awaited `cookies.set` call of the relay (the awaited
write for cookie `c`, whether it succeeded or threw); `newWindow r p` is a
`new BrowserWindow` with role `r` on partition `p`; the load/show/focus
and hide events are the corresponding `BrowserWindow` calls;
`installSpoof p` / `installAuthWatch p` are `setupAuthInterception` /
`setupAuthErrorDetection` on the session of partition `p`; `externalOpen`
is `shell.openExternal`. -/
inductive Ev where
  | cookieSetAttempt (c : Cookie)
  | closeSignIn
  | loadPrimary (url : String)
  | showPrimary
  | focusPrimary
  | loadOverlay (url : String)
  | showOverlay
  | focusOverlay
  | hideOverlay
  | hidePrimary
  | loadSignIn (url : String)
  | showSignIn
  | focusSignIn
  | newWindow (r : Role) (p : String)
  | installSpoof (p : String)
  | installAuthWatch (p : String)
  | externalOpen (url : String)
  deriving DecidableEq, Repr

/-- True exactly on the cookie-write events of the relay. -/
def Ev.isCookieSet : Ev → Bool
  | Ev.cookieSetAttempt _ => true
  | _ => false

/-- True exactly on the dependent navigations: a `loadURL` issued on
Primary or on Overlay. -/
def Ev.isDependentNav : Ev → Bool
  | Ev.loadPrimary _ => true
  | Ev.loadOverlay _ => true
  | _ => false

/-- The module-level mutable state of standard.ts and hud.ts:
`primaryLive` / `overlayLive` are `win !== null && !win.isDestroyed()` for
`standardWindow` / `hudWindow`; `overlayVisible` is `hudWindow.isVisible()`;
`standardSignInRef` and `hudSignInRef` are the two separate module-level
`signInWindow` variables (one per module), holding the id of the sign-in
window they created; `destroyedSignIns` records which sign-in window ids
have been destroyed; `nextId` numbers fresh windows; `signInsCreated` is
the audit list of all sign-in windows ever created. -/
structure AppState where
  primaryLive : Bool
  overlayLive : Bool
  overlayVisible : Bool
  standardSignInRef : Option Nat
  hudSignInRef : Option Nat
  destroyedSignIns : List Nat
  nextId : Nat
  signInsCreated : List Nat
  deriving DecidableEq, Repr

/-- The `signInWindow && !signInWindow.isDestroyed()` test of the two
`handleSignIn` functions, applied to one module's reference. -/
def signInAlive (s : AppState) (ref : Option Nat) : Bool :=
  match ref with
  | some w => !(s.destroyedSignIns.contains w)
  | none => false

/-! ### Embedded window operations -/

/-- The trace of the awaited `cookies.set` calls of `copyAuthCookies`, in
the order they resolve: one event per cookie enumerated from the clean
partition for '.google.com'. -/
def relayTrace (cleanJar : List Cookie) : List Ev :=
  (getCookiesForDomain cleanJar GOOGLE_DOMAIN_FILTER).map Ev.cookieSetAttempt

/-- The sign-in-completion test of both `did-navigate` handlers:
`navUrl.includes('gemini.google.com') && !navUrl.includes('accounts.google.com')`. -/
def urlIsSignInComplete (navUrl : String) : Bool :=
  strContains navUrl "gemini.google.com" && !(strContains navUrl "accounts.google.com")

/-- Embedding of `createSignInWindow` (auth-window.ts): a new BrowserWindow on the
clean SIGNIN_PARTITION that loads the requested auth URL; no header
spoofing is installed. Returns the fresh window id. -/
def createSignInWindow (s : AppState) (url : String) : AppState × Nat × List Ev :=
  ({ s with
      nextId := s.nextId + 1
      signInsCreated := s.signInsCreated ++ [s.nextId] },
    s.nextId,
    [Ev.newWindow Role.signIn SIGNIN_PARTITION, Ev.loadSignIn url])

/-- The optional-chained close call followed by the closed handler
(nulling the reference) for the standard.ts module reference. -/
def closeStandardSignIn (s : AppState) : AppState × List Ev :=
  match s.standardSignInRef with
  | some w =>
      ({ s with
          destroyedSignIns := s.destroyedSignIns ++ [w]
          standardSignInRef := none },
        [Ev.closeSignIn])
  | none => (s, [])

/-- The optional-chained close call followed by the closed handler for
the hud.ts module reference. -/
def closeHudSignIn (s : AppState) : AppState × List Ev :=
  match s.hudSignInRef with
  | some w =>
      ({ s with
          destroyedSignIns := s.destroyedSignIns ++ [w]
          hudSignInRef := none },
        [Ev.closeSignIn])
  | none => (s, [])

/-- Embedding of `handleSignIn` of standard.ts: when this module's sign-in window is
alive, redirect it (loadURL/show/focus); otherwise create a fresh one and
store it in this module's reference. -/
def standardHandleSignIn (s : AppState) (url : String) : AppState × List Ev :=
  if signInAlive s s.standardSignInRef then
    (s, [Ev.loadSignIn url, Ev.showSignIn, Ev.focusSignIn])
  else
    let r := createSignInWindow s url
    ({ r.1 with standardSignInRef := some r.2.1 }, r.2.2)

/-- Embedding of `handleSignIn` of hud.ts: same shape as standard.ts's, but over the
hud.ts module-level reference. -/
def hudHandleSignIn (s : AppState) (url : String) : AppState × List Ev :=
  if signInAlive s s.hudSignInRef then
    (s, [Ev.loadSignIn url, Ev.showSignIn, Ev.focusSignIn])
  else
    let r := createSignInWindow s url
    ({ r.1 with hudSignInRef := some r.2.1 }, r.2.2)

/-- Embedding of `createStandardWindow`: installs header spoofing on the spoofed
SESSION_PARTITION, creates the Primary window on that partition and loads
the wrapped site's root. -/
def createStandardWindow (s : AppState) : AppState × List Ev :=
  ({ s with primaryLive := true },
    [Ev.installSpoof SESSION_PARTITION,
      Ev.newWindow Role.primary SESSION_PARTITION,
      Ev.loadPrimary GEMINI_URL])

/-- Embedding of `createHUDWindow` (hud.ts): installs header spoofing and the
auth-error watcher on the spoofed SESSION_PARTITION, creates the Overlay
window there (initially hidden) and loads the wrapped site's root exactly
once. -/
def createHUDWindow (s : AppState) : AppState × List Ev :=
  ({ s with overlayLive := true, overlayVisible := false },
    [Ev.installSpoof SESSION_PARTITION,
      Ev.installAuthWatch SESSION_PARTITION,
      Ev.newWindow Role.overlay SESSION_PARTITION,
      Ev.loadOverlay GEMINI_URL])

/-- Embedding of `showStandardWindow`: create Primary if absent or destroyed, else
re-navigate it to the root URL, show and focus it. -/
def showStandardWindow (s : AppState) : AppState × List Ev :=
  if !s.primaryLive then
    createStandardWindow s
  else
    (s, [Ev.loadPrimary GEMINI_URL, Ev.showPrimary, Ev.focusPrimary])

/-- Embedding of `showHUDWindow`: create the Overlay (which loads once) if absent or
destroyed, then show and focus; when it is alive, only show and focus —
no navigation. -/
def showHUDWindow (s : AppState) : AppState × List Ev :=
  if !s.overlayLive then
    let r := createHUDWindow s
    ({ r.1 with overlayVisible := true }, r.2 ++ [Ev.showOverlay, Ev.focusOverlay])
  else
    ({ s with overlayVisible := true }, [Ev.showOverlay, Ev.focusOverlay])

/-- Embedding of `hideHUDWindow`: hide the Overlay when alive; never navigates. -/
def hideHUDWindow (s : AppState) : AppState × List Ev :=
  if s.overlayLive then
    ({ s with overlayVisible := false }, [Ev.hideOverlay])
  else
    (s, [])

/-- Embedding of `toggleHUDWindow`: create-and-show when absent or destroyed, hide when
visible, show when hidden. -/
def toggleHUDWindow (s : AppState) : AppState × List Ev :=
  if !s.overlayLive then
    showHUDWindow s
  else if s.overlayVisible then
    hideHUDWindow s
  else
    showHUDWindow s

/-- The `setupAuthErrorDetection` callback registered in `createHUDWindow`
(hud.ts): when the Overlay is alive and visible, hide it and call
`showStandardWindow`; otherwise do nothing. -/
def hudAuthErrorCallback (s : AppState) : AppState × List Ev :=
  if s.overlayLive && s.overlayVisible then
    let r := showStandardWindow { s with overlayVisible := false }
    (r.1, Ev.hideOverlay :: r.2)
  else
    (s, [])

/-- The `did-navigate` completion handler standard.ts attaches to the
sign-in window it created: on a navigation whose URL contains the wrapped
site's host and not the auth host, await the full cookie relay, close the
sign-in window, reload/show/focus Primary if alive, and reload the Overlay
if alive. -/
def standardSignInDidNavigate (cleanJar : List Cookie)
    (s : AppState) (navUrl : String) : AppState × List Ev :=
  if urlIsSignInComplete navUrl then
    let rc := closeStandardSignIn s
    (rc.1,
      relayTrace cleanJar ++ rc.2
        ++ (if s.primaryLive then
              [Ev.loadPrimary GEMINI_URL, Ev.showPrimary, Ev.focusPrimary]
            else [])
        ++ (if s.overlayLive then [Ev.loadOverlay GEMINI_URL] else []))
  else
    (s, [])

/-- The `did-navigate` completion handler hud.ts attaches to the sign-in
window it created: same URL test, await the relay, close the sign-in
window, then reload/show/focus the Overlay if alive. -/
def hudSignInDidNavigate (cleanJar : List Cookie)
    (s : AppState) (navUrl : String) : AppState × List Ev :=
  if urlIsSignInComplete navUrl then
    let rc := closeHudSignIn s
    (rc.1,
      relayTrace cleanJar ++ rc.2
        ++ (if s.overlayLive then
              [Ev.loadOverlay GEMINI_URL, Ev.showOverlay, Ev.focusOverlay]
            else []))
  else
    (s, [])

/-- The `will-navigate` interceptor of standard.ts: auth-domain targets
are cancelled and routed to `handleSignIn`; everything else proceeds
in-window. -/
def standardWillNavigate (s : AppState) (url : String) : AppState × List Ev :=
  if strContains url "accounts.google.com" then standardHandleSignIn s url
  else (s, [])

/-- The `setWindowOpenHandler` of standard.ts: auth-domain popups go to
`handleSignIn`, every other popup is opened externally; both are denied
in-app. -/
def standardWindowOpen (s : AppState) (url : String) : AppState × List Ev :=
  if strContains url "accounts.google.com" then standardHandleSignIn s url
  else (s, [Ev.externalOpen url])

/-- The `will-navigate` interceptor of hud.ts: on an auth-domain target
the HUD hides itself first, then routes to its `handleSignIn`. -/
def hudWillNavigate (s : AppState) (url : String) : AppState × List Ev :=
  if strContains url "accounts.google.com" then
    let r := hudHandleSignIn { s with overlayVisible := false } url
    (r.1, Ev.hideOverlay :: r.2)
  else (s, [])

/-- The `setWindowOpenHandler` of hud.ts: auth-domain popups go to the
HUD's `handleSignIn`, every other popup is opened externally. -/
def hudWindowOpen (s : AppState) (url : String) : AppState × List Ev :=
  if strContains url "accounts.google.com" then hudHandleSignIn s url
  else (s, [Ev.externalOpen url])

/-! ### Ordering of the relay before dependent navigation (C1) -/

/-- No event of the relay trace is a dependent navigation. -/
lemma relayTrace_no_nav (cleanJar : List Cookie) :
    ∀ e ∈ relayTrace cleanJar, e.isDependentNav = false := by
  intro e he
  obtain ⟨c, _, rfl⟩ := List.mem_map.mp he
  rfl

/-- Closing the standard module's sign-in window emits no cookie write. -/
lemma closeStandardSignIn_no_cookieSet (s : AppState) :
    ∀ e ∈ (closeStandardSignIn s).2, e.isCookieSet = false := by
  intro e he
  cases h : s.standardSignInRef <;> simp [closeStandardSignIn, h] at he
  subst he
  rfl

/-- Closing the hud module's sign-in window emits no cookie write. -/
lemma closeHudSignIn_no_cookieSet (s : AppState) :
    ∀ e ∈ (closeHudSignIn s).2, e.isCookieSet = false := by
  intro e he
  cases h : s.hudSignInRef <;> simp [closeHudSignIn, h] at he
  subst he
  rfl

/-- The conditional Primary reload block contains no cookie write. -/
lemma ifPrimary_no_cookieSet (b : Bool) :
    ∀ e ∈ (if b then [Ev.loadPrimary GEMINI_URL, Ev.showPrimary, Ev.focusPrimary]
           else ([] : List Ev)),
      e.isCookieSet = false := by
  cases b <;> intro e he <;> simp at he
  rcases he with rfl | rfl | rfl <;> rfl

/-- The conditional Overlay reload block of standard.ts contains no cookie
write. -/
lemma ifOverlay_no_cookieSet (b : Bool) :
    ∀ e ∈ (if b then [Ev.loadOverlay GEMINI_URL] else ([] : List Ev)),
      e.isCookieSet = false := by
  cases b <;> intro e he <;> simp at he
  subst he
  rfl

/-- The conditional Overlay reload block of hud.ts contains no cookie
write. -/
lemma ifOverlayShow_no_cookieSet (b : Bool) :
    ∀ e ∈ (if b then [Ev.loadOverlay GEMINI_URL, Ev.showOverlay, Ev.focusOverlay]
           else ([] : List Ev)),
      e.isCookieSet = false := by
  cases b <;> intro e he <;> simp at he
  rcases he with rfl | rfl | rfl <;> rfl

/-- In a trace `l₁ ++ l₂` where every cookie write lies in `l₁` and no
dependent navigation does, every cookie-write index precedes every
dependent-navigation index. -/
lemma cookieSet_before_nav_of_split (l₁ l₂ : List Ev)
    (h₁ : ∀ e ∈ l₂, e.isCookieSet = false)
    (h₂ : ∀ e ∈ l₁, e.isDependentNav = false)
    (i j : Nat) (hi : i < (l₁ ++ l₂).length) (hj : j < (l₁ ++ l₂).length)
    (hset : ((l₁ ++ l₂).get ⟨i, hi⟩).isCookieSet = true)
    (hnav : ((l₁ ++ l₂).get ⟨j, hj⟩).isDependentNav = true) :
    i < j := by
  rw [List.get_eq_getElem] at hset hnav
  have hlen := hi
  rw [List.length_append] at hlen
  have hilen : i < l₁.length := by
    by_contra hge
    push_neg at hge
    have hi2 : i - l₁.length < l₂.length := by omega
    rw [List.getElem_append_right hge] at hset
    have hmem := h₁ _ (l₂.getElem_mem hi2)
    rw [hmem] at hset
    cases hset
  have hjlen : l₁.length ≤ j := by
    by_contra hlt
    push_neg at hlt
    rw [List.getElem_append_left hlt] at hnav
    have hmem := h₂ _ (l₁.getElem_mem hlt)
    rw [hmem] at hnav
    cases hnav
  omega

/-- C1: in the sign-in completion flow (the `did-navigate` handler of
either window module), every cookie-set operation of the clean-to-spoofed
relay resolves before any dependent navigation of Primary or Overlay is
issued: in the handler's event trace, every cookie-write event strictly
precedes every `loadURL` event on Primary or Overlay. -/
theorem relay_before_dependent_navigation
    (cleanJar : List Cookie) (s : AppState) (navUrl : String) (tr : List Ev)
    (htr : tr = (standardSignInDidNavigate cleanJar s navUrl).2 ∨
           tr = (hudSignInDidNavigate cleanJar s navUrl).2)
    (i j : Nat) (hi : i < tr.length) (hj : j < tr.length)
    (hset : (tr.get ⟨i, hi⟩).isCookieSet = true)
    (hnav : (tr.get ⟨j, hj⟩).isDependentNav = true) :
    i < j := by
  rcases htr with htr | htr
  · rcases hcomp : urlIsSignInComplete navUrl with _ | _
    · subst htr
      rw [standardSignInDidNavigate, hcomp] at hi
      simp at hi
    · have htr2 : tr = relayTrace cleanJar ++
          ((closeStandardSignIn s).2
            ++ ((if s.primaryLive then
                  [Ev.loadPrimary GEMINI_URL, Ev.showPrimary, Ev.focusPrimary]
                else [])
              ++ (if s.overlayLive then [Ev.loadOverlay GEMINI_URL] else []))) := by
        rw [htr, standardSignInDidNavigate, hcomp]
        simp [List.append_assoc]
      subst htr2
      refine cookieSet_before_nav_of_split _ _ ?_ (relayTrace_no_nav cleanJar) i j hi hj hset hnav
      intro e he
      simp only [List.mem_append] at he
      rcases he with he | he | he
      · exact closeStandardSignIn_no_cookieSet s e he
      · exact ifPrimary_no_cookieSet s.primaryLive e he
      · exact ifOverlay_no_cookieSet s.overlayLive e he
  · rcases hcomp : urlIsSignInComplete navUrl with _ | _
    · subst htr
      rw [hudSignInDidNavigate, hcomp] at hi
      simp at hi
    · have htr2 : tr = relayTrace cleanJar ++
          ((closeHudSignIn s).2
            ++ (if s.overlayLive then
                  [Ev.loadOverlay GEMINI_URL, Ev.showOverlay, Ev.focusOverlay]
                else [])) := by
        rw [htr, hudSignInDidNavigate, hcomp]
        simp [List.append_assoc]
      subst htr2
      refine cookieSet_before_nav_of_split _ _ ?_ (relayTrace_no_nav cleanJar) i j hi hj hset hnav
      intro e he
      simp only [List.mem_append] at he
      rcases he with he | he
      · exact closeHudSignIn_no_cookieSet s e he
      · exact ifOverlayShow_no_cookieSet s.overlayLive e he

/-- A concrete application state with every window alive, the Overlay
visible, and the standard module holding sign-in window 0. -/
def liveState : AppState :=
  { primaryLive := true
    overlayLive := true
    overlayVisible := true
    standardSignInRef := some 0
    hudSignInRef := none
    destroyedSignIns := []
    nextId := 1
    signInsCreated := [0] }

/-- Witness for C1 at a concrete input: one SID cookie in the clean jar,
all windows alive, post-auth navigation URL; the cookie write at index 0
precedes the Primary reload at index 2. -/
theorem relay_before_dependent_navigation_witness :
    ∃ (hi : 0 < (standardSignInDidNavigate [sidCookie] liveState
        "https://gemini.google.com/app").2.length)
      (hj : 2 < (standardSignInDidNavigate [sidCookie] liveState
        "https://gemini.google.com/app").2.length),
      (((standardSignInDidNavigate [sidCookie] liveState
        "https://gemini.google.com/app").2.get ⟨0, hi⟩).isCookieSet = true ∧
       ((standardSignInDidNavigate [sidCookie] liveState
        "https://gemini.google.com/app").2.get ⟨2, hj⟩).isDependentNav = true) ∧
      0 < 2 := by
  refine ⟨by decide, by decide, ⟨by decide, by decide⟩, ?_⟩
  exact relay_before_dependent_navigation [sidCookie] liveState
    "https://gemini.google.com/app" _ (Or.inl rfl) 0 2 (by decide) (by decide)
    (by decide) (by decide)

/-! ### Sign-in completion is gated only by the navigation URL (C10) -/

/-- C10: sign-in completion is detected purely from the SignIn window's
navigation URL. For any navigation whose URL contains the wrapped site's
host and not the auth host, and for ANY clean-partition jar — including an
empty one, i.e. when no sign-in actually occurred — both modules' handlers
run the full relay (the trace starts with the complete relay trace), close
the sign-in window when their reference is set, and reload the dependent
windows that are alive. No signed-in check appears anywhere in the
hypotheses: the jar is universally quantified. -/
theorem completion_detected_by_url_only
    (cleanJar : List Cookie) (s : AppState) (navUrl : String)
    (hurl : urlIsSignInComplete navUrl = true) :
    (∃ rest, (standardSignInDidNavigate cleanJar s navUrl).2
        = relayTrace cleanJar ++ rest) ∧
    (∃ rest, (hudSignInDidNavigate cleanJar s navUrl).2
        = relayTrace cleanJar ++ rest) ∧
    (s.standardSignInRef.isSome = true →
      Ev.closeSignIn ∈ (standardSignInDidNavigate cleanJar s navUrl).2) ∧
    (s.primaryLive = true →
      Ev.loadPrimary GEMINI_URL ∈ (standardSignInDidNavigate cleanJar s navUrl).2) ∧
    (s.overlayLive = true →
      Ev.loadOverlay GEMINI_URL ∈ (standardSignInDidNavigate cleanJar s navUrl).2) ∧
    (s.overlayLive = true →
      Ev.loadOverlay GEMINI_URL ∈ (hudSignInDidNavigate cleanJar s navUrl).2) := by
  have hstd : (standardSignInDidNavigate cleanJar s navUrl).2
      = relayTrace cleanJar ++ ((closeStandardSignIn s).2
        ++ ((if s.primaryLive then
              [Ev.loadPrimary GEMINI_URL, Ev.showPrimary, Ev.focusPrimary]
            else [])
          ++ (if s.overlayLive then [Ev.loadOverlay GEMINI_URL] else []))) := by
    rw [standardSignInDidNavigate, hurl]
    simp [List.append_assoc]
  have hhud : (hudSignInDidNavigate cleanJar s navUrl).2
      = relayTrace cleanJar ++ ((closeHudSignIn s).2
        ++ (if s.overlayLive then
              [Ev.loadOverlay GEMINI_URL, Ev.showOverlay, Ev.focusOverlay]
            else [])) := by
    rw [hudSignInDidNavigate, hurl]
    simp [List.append_assoc]
  refine ⟨⟨_, hstd⟩, ⟨_, hhud⟩, ?_, ?_, ?_, ?_⟩
  · intro href
    rw [hstd]
    rcases hr : s.standardSignInRef with _ | w
    · simp [hr] at href
    · refine List.mem_append_right _ (List.mem_append_left _ ?_)
      simp [closeStandardSignIn, hr]
  · intro hp
    rw [hstd]
    refine List.mem_append_right _ (List.mem_append_right _ (List.mem_append_left _ ?_))
    simp [hp]
  · intro ho
    rw [hstd]
    refine List.mem_append_right _ (List.mem_append_right _ (List.mem_append_right _ ?_))
    simp [ho]
  · intro ho
    rw [hhud]
    refine List.mem_append_right _ (List.mem_append_right _ ?_)
    simp [ho]

/-- Witness for C10 at a concrete input: an EMPTY clean jar (no credentials
at all) and a post-auth URL still close the sign-in window and reload
Primary. -/
theorem completion_detected_by_url_only_witness :
    urlIsSignInComplete "https://gemini.google.com/app" = true ∧
    liveState.standardSignInRef.isSome = true ∧
    Ev.closeSignIn ∈
      (standardSignInDidNavigate [] liveState "https://gemini.google.com/app").2 ∧
    Ev.loadPrimary GEMINI_URL ∈
      (standardSignInDidNavigate [] liveState "https://gemini.google.com/app").2 := by
  refine ⟨by decide, by decide, ?_, ?_⟩
  · exact (completion_detected_by_url_only [] liveState
      "https://gemini.google.com/app" (by decide)).2.2.1 (by decide)
  · exact (completion_detected_by_url_only [] liveState
      "https://gemini.google.com/app" (by decide)).2.2.2.1 (by decide)

/-! ### SignIn window uniqueness (C3) -/

/-- The application state at startup: both windows created, no sign-in
window yet, no ids allocated. -/
def freshState : AppState :=
  { primaryLive := true
    overlayLive := true
    overlayVisible := false
    standardSignInRef := none
    hudSignInRef := none
    destroyedSignIns := []
    nextId := 0
    signInsCreated := [] }

/-- A concrete identity-provider sign-in URL. -/
def authUrl : String := "https://accounts.google.com/signin/v2"

/-- Counterexample to C3 as stated: a navigation-intercept to the
identity-provider domain from Primary creates sign-in window 0; while that
window is still alive, the same intercept fired in the Overlay module
consults the Overlay module's own null `signInWindow` reference and
creates a SECOND sign-in window (id 1) instead of redirecting window 0 —
the two modules keep separate module-level references. -/
theorem signin_not_globally_unique_counterexample :
    ((standardWillNavigate freshState authUrl).1.standardSignInRef = some 0 ∧
      signInAlive (standardWillNavigate freshState authUrl).1
        (standardWillNavigate freshState authUrl).1.standardSignInRef = true) ∧
    (hudWillNavigate (standardWillNavigate freshState authUrl).1 authUrl).1.signInsCreated
      = [0, 1] ∧
    (hudWillNavigate (standardWillNavigate freshState authUrl).1 authUrl).2
      = [Ev.hideOverlay, Ev.newWindow Role.signIn SIGNIN_PARTITION,
          Ev.loadSignIn authUrl] ∧
    signInAlive (hudWillNavigate (standardWillNavigate freshState authUrl).1 authUrl).1
      (some 0) = true := by
  decide

/-- C3 amended: SignIn uniqueness holds per window module, not across the
application. Within the module whose own sign-in reference is alive, a
further sign-in request redirects the existing instance (loadURL, show,
focus), creates no window, and leaves the state unchanged — for both the
standard.ts and the hud.ts module. -/
theorem signin_unique_per_module (s : AppState) (url : String)
    (hstd : signInAlive s s.standardSignInRef = true)
    (hhud : signInAlive s s.hudSignInRef = true) :
    ((standardHandleSignIn s url).1 = s ∧
      (standardHandleSignIn s url).2
        = [Ev.loadSignIn url, Ev.showSignIn, Ev.focusSignIn]) ∧
    ((hudHandleSignIn s url).1 = s ∧
      (hudHandleSignIn s url).2
        = [Ev.loadSignIn url, Ev.showSignIn, Ev.focusSignIn]) := by
  unfold standardHandleSignIn hudHandleSignIn
  rw [hstd, hhud]
  simp

/-- A state in which both modules hold a live sign-in window. -/
def bothSignInState : AppState :=
  { primaryLive := true
    overlayLive := true
    overlayVisible := false
    standardSignInRef := some 0
    hudSignInRef := some 1
    destroyedSignIns := []
    nextId := 2
    signInsCreated := [0, 1] }

/-- Witness for the amended C3 at a concrete state with both module
references alive. -/
theorem signin_unique_per_module_witness :
    (signInAlive bothSignInState bothSignInState.standardSignInRef = true ∧
      signInAlive bothSignInState bothSignInState.hudSignInRef = true) ∧
    (standardHandleSignIn bothSignInState authUrl).1 = bothSignInState :=
  ⟨⟨by decide, by decide⟩,
    (signin_unique_per_module bothSignInState authUrl (by decide) (by decide)).1.1⟩

/-! ### Auth-error recovery while Overlay is visible (C4) -/

/-- Counterexample to C4 as stated: at a concrete state where the Overlay
is visible, Primary is alive, and a sign-in window (id 0) is present and
alive, the AuthErrorWatcher callback emits only
[hideOverlay, loadPrimary, showPrimary, focusPrimary]: it runs NO cookie
relay (no cookie-write event), does NOT close the present sign-in window,
and does NOT re-navigate the live Overlay — three steps of the claimed
pipeline are skipped. -/
theorem auth_error_pipeline_counterexample :
    (hudAuthErrorCallback liveState).2
      = [Ev.hideOverlay, Ev.loadPrimary GEMINI_URL, Ev.showPrimary,
          Ev.focusPrimary] ∧
    (hudAuthErrorCallback liveState).2.all (fun e => !e.isCookieSet) = true ∧
    Ev.closeSignIn ∉ (hudAuthErrorCallback liveState).2 ∧
    Ev.loadOverlay GEMINI_URL ∉ (hudAuthErrorCallback liveState).2 ∧
    signInAlive liveState liveState.standardSignInRef = true ∧
    liveState.overlayLive = true := by
  decide

/-- C4 amended: when AuthErrorWatcher's callback fires while the Overlay
is visible (and not destroyed), the Overlay is hidden — not destroyed —
and Primary is raised: re-navigated to the wrapped site's root, shown and
focused when it is alive, or created loading the root otherwise. The
callback itself runs no cookie relay, closes no SignIn window, and never
re-navigates the Overlay; relay, SignIn close and Overlay reload happen
only in the subsequent sign-in-completion flow. -/
theorem auth_error_hides_overlay_shows_primary (s : AppState)
    (hlive : s.overlayLive = true) (hvis : s.overlayVisible = true) :
    (hudAuthErrorCallback s).2
      = Ev.hideOverlay :: (showStandardWindow { s with overlayVisible := false }).2 ∧
    (hudAuthErrorCallback s).1.overlayLive = true ∧
    (hudAuthErrorCallback s).1.overlayVisible = false ∧
    (s.primaryLive = true →
      (hudAuthErrorCallback s).2
        = [Ev.hideOverlay, Ev.loadPrimary GEMINI_URL, Ev.showPrimary,
            Ev.focusPrimary]) ∧
    (s.primaryLive = false →
      (hudAuthErrorCallback s).2
        = [Ev.hideOverlay, Ev.installSpoof SESSION_PARTITION,
            Ev.newWindow Role.primary SESSION_PARTITION,
            Ev.loadPrimary GEMINI_URL]) ∧
    (hudAuthErrorCallback s).2.all (fun e => !e.isCookieSet) = true ∧
    Ev.closeSignIn ∉ (hudAuthErrorCallback s).2 ∧
    Ev.loadOverlay GEMINI_URL ∉ (hudAuthErrorCallback s).2 := by
  unfold hudAuthErrorCallback showStandardWindow createStandardWindow
  rw [hlive, hvis]
  cases hp : s.primaryLive <;> simp [Ev.isCookieSet, hlive]

/-- Witness for the amended C4 at the concrete live state. -/
theorem auth_error_hides_overlay_shows_primary_witness :
    (liveState.overlayLive = true ∧ liveState.overlayVisible = true) ∧
    (hudAuthErrorCallback liveState).1.overlayLive = true :=
  ⟨⟨by decide, by decide⟩,
    (auth_error_hides_overlay_shows_primary liveState (by decide) (by decide)).2.1⟩

/-! ### Overlay navigation discipline (C5) -/

/-- Number of `loadURL` calls issued on the Overlay window in a trace. -/
def countOverlayLoads (tr : List Ev) : Nat :=
  tr.countP (fun e => match e with | Ev.loadOverlay _ => true | _ => false)

/-- The relay trace contains no Overlay navigation. -/
lemma countOverlayLoads_relayTrace (cleanJar : List Cookie) :
    countOverlayLoads (relayTrace cleanJar) = 0 := by
  unfold countOverlayLoads relayTrace
  induction getCookiesForDomain cleanJar GOOGLE_DOMAIN_FILTER with
  | nil => rfl
  | cons c l ih => simp [List.countP_cons, ih]

/-- Closing a sign-in window navigates nothing. -/
lemma countOverlayLoads_closeStandard (s : AppState) :
    countOverlayLoads (closeStandardSignIn s).2 = 0 := by
  cases h : s.standardSignInRef <;> simp [closeStandardSignIn, h, countOverlayLoads]

/-- Closing a sign-in window navigates nothing (hud module reference). -/
lemma countOverlayLoads_closeHud (s : AppState) :
    countOverlayLoads (closeHudSignIn s).2 = 0 := by
  cases h : s.hudSignInRef <;> simp [closeHudSignIn, h, countOverlayLoads]

/-- C5: the Overlay's `loadURL` is invoked exactly once by window
creation, never by a plain show, hide or toggle of a live Overlay window,
never by the auth-error callback, and at most once per sign-in-completion
(recovery) handler run of either module. -/
theorem overlay_load_discipline (s : AppState) (cleanJar : List Cookie)
    (navUrl : String) (hlive : s.overlayLive = true) :
    countOverlayLoads (createHUDWindow s).2 = 1 ∧
    countOverlayLoads (showHUDWindow s).2 = 0 ∧
    countOverlayLoads (hideHUDWindow s).2 = 0 ∧
    countOverlayLoads (toggleHUDWindow s).2 = 0 ∧
    countOverlayLoads (hudAuthErrorCallback s).2 = 0 ∧
    countOverlayLoads (hudSignInDidNavigate cleanJar s navUrl).2 ≤ 1 ∧
    countOverlayLoads (standardSignInDidNavigate cleanJar s navUrl).2 ≤ 1 := by
  refine ⟨by simp [createHUDWindow, countOverlayLoads], ?_, ?_, ?_, ?_, ?_, ?_⟩
  · simp [showHUDWindow, hlive, countOverlayLoads]
  · simp [hideHUDWindow, hlive, countOverlayLoads]
  · unfold toggleHUDWindow
    rw [hlive]
    cases hv : s.overlayVisible <;>
      simp [showHUDWindow, hideHUDWindow, hlive, countOverlayLoads]
  · unfold hudAuthErrorCallback
    rw [hlive]
    cases hv : s.overlayVisible
    · simp [countOverlayLoads]
    · simp only [Bool.true_and]
      unfold showStandardWindow createStandardWindow
      cases hp : s.primaryLive <;> simp [countOverlayLoads]
  · unfold hudSignInDidNavigate
    cases hcomp : urlIsSignInComplete navUrl
    · simp [countOverlayLoads]
    · simp only [if_true]
      rw [show countOverlayLoads (relayTrace cleanJar ++ (closeHudSignIn s).2
            ++ (if s.overlayLive then
                  [Ev.loadOverlay GEMINI_URL, Ev.showOverlay, Ev.focusOverlay]
                else []))
          = countOverlayLoads (relayTrace cleanJar)
            + countOverlayLoads (closeHudSignIn s).2
            + countOverlayLoads (if s.overlayLive then
                [Ev.loadOverlay GEMINI_URL, Ev.showOverlay, Ev.focusOverlay]
              else []) from by
          simp only [countOverlayLoads, List.countP_append]]
      rw [countOverlayLoads_relayTrace, countOverlayLoads_closeHud]
      cases ho : s.overlayLive <;> simp [countOverlayLoads]
  · unfold standardSignInDidNavigate
    cases hcomp : urlIsSignInComplete navUrl
    · simp [countOverlayLoads]
    · simp only [if_true]
      rw [show countOverlayLoads (relayTrace cleanJar ++ (closeStandardSignIn s).2
            ++ (if s.primaryLive then
                  [Ev.loadPrimary GEMINI_URL, Ev.showPrimary, Ev.focusPrimary]
                else [])
            ++ (if s.overlayLive then [Ev.loadOverlay GEMINI_URL] else []))
          = countOverlayLoads (relayTrace cleanJar)
            + countOverlayLoads (closeStandardSignIn s).2
            + countOverlayLoads (if s.primaryLive then
                [Ev.loadPrimary GEMINI_URL, Ev.showPrimary, Ev.focusPrimary]
              else [])
            + countOverlayLoads (if s.overlayLive then
                [Ev.loadOverlay GEMINI_URL] else []) from by
          simp only [countOverlayLoads, List.countP_append]]
      rw [countOverlayLoads_relayTrace, countOverlayLoads_closeStandard]
      cases hp : s.primaryLive <;> cases ho : s.overlayLive <;>
        simp [countOverlayLoads]

/-- Witness for C5 at the concrete live state: toggling the live Overlay
issues zero Overlay navigations. -/
theorem overlay_load_discipline_witness :
    liveState.overlayLive = true ∧
    countOverlayLoads (toggleHUDWindow liveState).2 = 0 :=
  ⟨by decide,
    (overlay_load_discipline liveState [sidCookie]
      "https://gemini.google.com/app" (by decide)).2.2.2.1⟩

/-! ### System runs and partition hygiene (C6) -/

/-- The coordinator entry points a driver can invoke, i.e. the exported
functions and registered event handlers of standard.ts and hud.ts. -/
inductive Op where
  | createStandard
  | createHUD
  | showStandard
  | hideStandard
  | showHUD
  | hideHUD
  | toggleHUD
  | standardWillNav (url : String)
  | standardWinOpen (url : String)
  | hudWillNav (url : String)
  | hudWinOpen (url : String)
  | authError
  | standardSignInNav (navUrl : String)
  | hudSignInNav (navUrl : String)
  deriving DecidableEq, Repr

/-- Embedding of `hideStandardWindow`: hide Primary when alive; no other effect. -/
def hideStandardWindow (s : AppState) : AppState × List Ev :=
  if s.primaryLive then (s, [Ev.hidePrimary]) else (s, [])

/-- Dispatch one coordinator entry point. -/
def step (cleanJar : List Cookie) (s : AppState) : Op → AppState × List Ev
  | Op.createStandard => createStandardWindow s
  | Op.createHUD => createHUDWindow s
  | Op.showStandard => showStandardWindow s
  | Op.hideStandard => hideStandardWindow s
  | Op.showHUD => showHUDWindow s
  | Op.hideHUD => hideHUDWindow s
  | Op.toggleHUD => toggleHUDWindow s
  | Op.standardWillNav url => standardWillNavigate s url
  | Op.standardWinOpen url => standardWindowOpen s url
  | Op.hudWillNav url => hudWillNavigate s url
  | Op.hudWinOpen url => hudWindowOpen s url
  | Op.authError => hudAuthErrorCallback s
  | Op.standardSignInNav navUrl => standardSignInDidNavigate cleanJar s navUrl
  | Op.hudSignInNav navUrl => hudSignInDidNavigate cleanJar s navUrl

/-- Run a sequence of entry points, concatenating their event traces. -/
def run (cleanJar : List Cookie) (s : AppState) : List Op → AppState × List Ev
  | [] => (s, [])
  | op :: ops =>
      let r := step cleanJar s op
      let rr := run cleanJar r.1 ops
      (rr.1, r.2 ++ rr.2)

/-- Partition hygiene of one event: header spoofing is only ever installed
on the spoofed SESSION_PARTITION, and every sign-in window is created on
the clean SIGNIN_PARTITION. -/
def evPartitionOk (e : Ev) : Bool :=
  match e with
  | Ev.installSpoof p => p == SESSION_PARTITION
  | Ev.newWindow Role.signIn p => p == SIGNIN_PARTITION
  | _ => true

/-- Partition hygiene of a whole trace. -/
def traceOk (tr : List Ev) : Bool :=
  tr.all evPartitionOk

lemma traceOk_append (l₁ l₂ : List Ev) :
    traceOk (l₁ ++ l₂) = (traceOk l₁ && traceOk l₂) := by
  simp [traceOk]

lemma traceOk_cons (e : Ev) (tr : List Ev) :
    traceOk (e :: tr) = (evPartitionOk e && traceOk tr) := rfl

lemma traceOk_relayTrace (cleanJar : List Cookie) :
    traceOk (relayTrace cleanJar) = true := by
  unfold traceOk relayTrace
  induction getCookiesForDomain cleanJar GOOGLE_DOMAIN_FILTER with
  | nil => rfl
  | cons c l ih => simp [ih, evPartitionOk]

lemma traceOk_closeStandard (s : AppState) :
    traceOk (closeStandardSignIn s).2 = true := by
  cases h : s.standardSignInRef <;> simp [closeStandardSignIn, h, traceOk, evPartitionOk]

lemma traceOk_closeHud (s : AppState) :
    traceOk (closeHudSignIn s).2 = true := by
  cases h : s.hudSignInRef <;> simp [closeHudSignIn, h, traceOk, evPartitionOk]

lemma traceOk_createStandard (s : AppState) :
    traceOk (createStandardWindow s).2 = true := rfl

lemma traceOk_createHUD (s : AppState) :
    traceOk (createHUDWindow s).2 = true := rfl

lemma traceOk_createSignIn (s : AppState) (url : String) :
    traceOk (createSignInWindow s url).2.2 = true := rfl

lemma traceOk_showStandard (s : AppState) :
    traceOk (showStandardWindow s).2 = true := by
  unfold showStandardWindow
  split <;> rfl

lemma traceOk_showHUD (s : AppState) :
    traceOk (showHUDWindow s).2 = true := by
  unfold showHUDWindow
  split <;> rfl

lemma traceOk_hideHUD (s : AppState) :
    traceOk (hideHUDWindow s).2 = true := by
  unfold hideHUDWindow
  split <;> rfl

lemma traceOk_toggleHUD (s : AppState) :
    traceOk (toggleHUDWindow s).2 = true := by
  unfold toggleHUDWindow
  split
  · exact traceOk_showHUD s
  · split
    · exact traceOk_hideHUD s
    · exact traceOk_showHUD s

lemma traceOk_stdHandle (s : AppState) (url : String) :
    traceOk (standardHandleSignIn s url).2 = true := by
  unfold standardHandleSignIn
  split <;> rfl

lemma traceOk_hudHandle (s : AppState) (url : String) :
    traceOk (hudHandleSignIn s url).2 = true := by
  unfold hudHandleSignIn
  split <;> rfl

lemma traceOk_authError (s : AppState) :
    traceOk (hudAuthErrorCallback s).2 = true := by
  unfold hudAuthErrorCallback
  split
  · show traceOk (Ev.hideOverlay ::
      (showStandardWindow { s with overlayVisible := false }).2) = true
    rw [traceOk_cons, traceOk_showStandard]
    rfl
  · rfl

lemma traceOk_stdNav (cleanJar : List Cookie) (s : AppState) (navUrl : String) :
    traceOk (standardSignInDidNavigate cleanJar s navUrl).2 = true := by
  unfold standardSignInDidNavigate
  cases hcomp : urlIsSignInComplete navUrl
  · simp [traceOk]
  · simp only [if_true]
    rw [traceOk_append, traceOk_append, traceOk_append]
    rw [traceOk_relayTrace, traceOk_closeStandard]
    cases hp : s.primaryLive <;> cases ho : s.overlayLive <;>
      simp [traceOk, evPartitionOk]

lemma traceOk_hudNav (cleanJar : List Cookie) (s : AppState) (navUrl : String) :
    traceOk (hudSignInDidNavigate cleanJar s navUrl).2 = true := by
  unfold hudSignInDidNavigate
  cases hcomp : urlIsSignInComplete navUrl
  · simp [traceOk]
  · simp only [if_true]
    rw [traceOk_append, traceOk_append]
    rw [traceOk_relayTrace, traceOk_closeHud]
    cases ho : s.overlayLive <;> simp [traceOk, evPartitionOk]

/-- Every single entry-point dispatch emits a partition-hygienic trace. -/
lemma step_traceOk (cleanJar : List Cookie) (s : AppState) (op : Op) :
    traceOk (step cleanJar s op).2 = true := by
  cases op with
  | createStandard => exact traceOk_createStandard s
  | createHUD => exact traceOk_createHUD s
  | showStandard => exact traceOk_showStandard s
  | hideStandard =>
      show traceOk (hideStandardWindow s).2 = true
      unfold hideStandardWindow
      split <;> rfl
  | showHUD => exact traceOk_showHUD s
  | hideHUD => exact traceOk_hideHUD s
  | toggleHUD => exact traceOk_toggleHUD s
  | standardWillNav url =>
      show traceOk (standardWillNavigate s url).2 = true
      unfold standardWillNavigate
      split
      · exact traceOk_stdHandle s url
      · rfl
  | standardWinOpen url =>
      show traceOk (standardWindowOpen s url).2 = true
      unfold standardWindowOpen
      split
      · exact traceOk_stdHandle s url
      · rfl
  | hudWillNav url =>
      show traceOk (hudWillNavigate s url).2 = true
      unfold hudWillNavigate
      split
      · show traceOk (Ev.hideOverlay ::
          (hudHandleSignIn { s with overlayVisible := false } url).2) = true
        rw [traceOk_cons, traceOk_hudHandle]
        rfl
      · rfl
  | hudWinOpen url =>
      show traceOk (hudWindowOpen s url).2 = true
      unfold hudWindowOpen
      split
      · exact traceOk_hudHandle s url
      · rfl
  | authError => exact traceOk_authError s
  | standardSignInNav navUrl => exact traceOk_stdNav cleanJar s navUrl
  | hudSignInNav navUrl => exact traceOk_hudNav cleanJar s navUrl

/-- Every run of entry points emits a partition-hygienic trace. -/
lemma run_traceOk (cleanJar : List Cookie) (ops : List Op) :
    ∀ s, traceOk (run cleanJar s ops).2 = true := by
  induction ops with
  | nil => intro s; rfl
  | cons op ops ih =>
      intro s
      unfold run
      rw [traceOk_append, step_traceOk, ih]
      rfl

/-- C6: across every possible sequence of coordinator entry points, the
header-spoofing interceptor is installed only on the spoofed partition's
session (never on the clean sign-in partition, which is a distinct
partition name), and every SignIn window is created on the clean
partition — `createSignInWindow` never installs spoofing, so SignIn
windows keep the default fingerprint. -/
theorem spoof_only_on_spoofed_partition (cleanJar : List Cookie)
    (s : AppState) (ops : List Op) :
    (∀ p, Ev.installSpoof p ∈ (run cleanJar s ops).2 → p = SESSION_PARTITION) ∧
    (∀ p, Ev.newWindow Role.signIn p ∈ (run cleanJar s ops).2 → p = SIGNIN_PARTITION) ∧
    SESSION_PARTITION ≠ SIGNIN_PARTITION := by
  have hok := run_traceOk cleanJar ops s
  rw [traceOk, List.all_eq_true] at hok
  refine ⟨?_, ?_, by decide⟩
  · intro p hp
    have h2 := hok _ hp
    simpa [evPartitionOk] using h2
  · intro p hp
    have h2 := hok _ hp
    simpa [evPartitionOk] using h2

/-- Witness for C6 on a concrete run: creating both main windows and
routing a sign-in both ways yields a trace whose spoof installs are on the
spoofed partition and whose sign-in window is on the clean partition. -/
theorem spoof_only_on_spoofed_partition_witness :
    Ev.installSpoof SESSION_PARTITION ∈
      (run [] freshState [Op.createStandard, Op.createHUD,
        Op.standardWillNav authUrl]).2 ∧
    Ev.newWindow Role.signIn SIGNIN_PARTITION ∈
      (run [] freshState [Op.createStandard, Op.createHUD,
        Op.standardWillNav authUrl]).2 ∧
    SESSION_PARTITION = SESSION_PARTITION :=
  ⟨by decide, by decide,
    (spoof_only_on_spoofed_partition [] freshState
        [Op.createStandard, Op.createHUD, Op.standardWillNav authUrl]).1
      SESSION_PARTITION (by decide)⟩

/-! ### Auth-error watcher (C7) -/

/-- One completed HTTP response as delivered by `onCompleted` to the
watcher's handler, i.e. a response on the watched domain. The `body` field
models the response payload; Electron's onCompleted details do not even
carry a body, and it is included here only so that body-independence of
the handler is expressible. -/
structure ResponseDetails where
  url : String
  statusCode : Nat
  body : String
  deriving DecidableEq, Repr

/-- The `onCompleted` handler body of `setupAuthErrorDetection` (auth.ts):
the number of `onAuthError` invocations it performs for one delivered
response. -/
def authErrorCallbackCount (d : ResponseDetails) : Nat :=
  if d.statusCode == 401 || d.statusCode == 403 then 1 else 0

/-- C7: the auth-error watcher invokes its callback exactly once per
completed response on the watched domain whose status is 401 or 403, never
for any other status, and its behavior is a function of the status code
alone — in particular it is independent of the response body, which it
never inspects. -/
theorem auth_error_watcher_status_filter (d d' : ResponseDetails) :
    (authErrorCallbackCount d = 1 ↔ (d.statusCode = 401 ∨ d.statusCode = 403)) ∧
    (authErrorCallbackCount d = 0 ↔ ¬(d.statusCode = 401 ∨ d.statusCode = 403)) ∧
    (d.statusCode = d'.statusCode →
      authErrorCallbackCount d = authErrorCallbackCount d') := by
  have hval : ∀ e : ResponseDetails, authErrorCallbackCount e
      = if e.statusCode = 401 ∨ e.statusCode = 403 then 1 else 0 := by
    intro e
    unfold authErrorCallbackCount
    by_cases h : e.statusCode = 401 ∨ e.statusCode = 403
    · have hb : (e.statusCode == 401 || e.statusCode == 403) = true := by
        rcases h with h | h <;> simp [h]
      rw [hb, if_pos h]
      simp
    · have hb : (e.statusCode == 401 || e.statusCode == 403) = false := by
        push_neg at h
        simp [h.1, h.2]
      rw [hb, if_neg h]
      simp
  rw [hval d, hval d']
  refine ⟨?_, ?_, ?_⟩
  · by_cases h : d.statusCode = 401 ∨ d.statusCode = 403 <;> simp [h]
  · by_cases h : d.statusCode = 401 ∨ d.statusCode = 403 <;> simp [h]
  · intro h
    rw [h]

/-- Witness for C7: a 403 response fires the callback exactly once, a 200
response never fires it, and two responses equal up to the body behave
identically. -/
theorem auth_error_watcher_status_filter_witness :
    authErrorCallbackCount ⟨"https://gemini.google.com/api", 403, "Forbidden"⟩ = 1 ∧
    authErrorCallbackCount ⟨"https://gemini.google.com/api", 200, "ok"⟩ = 0 ∧
    authErrorCallbackCount ⟨"https://gemini.google.com/api", 403, "Forbidden"⟩
      = authErrorCallbackCount ⟨"https://gemini.google.com/api", 403, "other body"⟩ :=
  ⟨(auth_error_watcher_status_filter
      ⟨"https://gemini.google.com/api", 403, "Forbidden"⟩
      ⟨"https://gemini.google.com/api", 403, "other body"⟩).1.mpr (Or.inr rfl),
    (auth_error_watcher_status_filter
      ⟨"https://gemini.google.com/api", 200, "ok"⟩
      ⟨"https://gemini.google.com/api", 200, "ok"⟩).2.1.mpr (by simp),
    (auth_error_watcher_status_filter
      ⟨"https://gemini.google.com/api", 403, "Forbidden"⟩
      ⟨"https://gemini.google.com/api", 403, "other body"⟩).2.2 rfl⟩

/-! ### BoundsGuard (C8) -/

/-- A saved window-bounds record (store.ts `windowBounds` entries):
optional position, mandatory size. Coordinates are rationals, matching
exact JavaScript number arithmetic on the values involved
(`width / 2` in particular). -/
structure Bounds where
  x : Option ℚ
  y : Option ℚ
  width : ℚ
  height : ℚ
  deriving DecidableEq, Repr

/-- The `defaults` argument of `ensureVisibleBounds`: a fallback size with
no position. -/
structure FallbackSize where
  width : ℚ
  height : ℚ
  deriving DecidableEq, Repr

/-- One attached display's `display.bounds` rectangle. -/
structure DisplayBounds where
  x : ℚ
  y : ℚ
  width : ℚ
  height : ℚ
  deriving DecidableEq, Repr

/-- The per-display test of `ensureVisibleBounds`:
`centerX >= db.x && centerX < db.x + db.width && centerY >= db.y &&
centerY < db.y + db.height`. -/
def centerWithin (db : DisplayBounds) (cx cy : ℚ) : Bool :=
  decide (db.x ≤ cx) && decide (cx < db.x + db.width) &&
    decide (db.y ≤ cy) && decide (cy < db.y + db.height)

/-- Embedding of `ensureVisibleBounds` from store.ts: if either saved coordinate is
absent, return the fallback size with absent position; otherwise keep the
saved bounds exactly when the window's center point falls inside some
attached display, else return the fallback size with absent position. The
display list (`screen.getAllDisplays()`) is passed explicitly. -/
def ensureVisibleBounds (displays : List DisplayBounds)
    (bounds : Bounds) (defaults : FallbackSize) : Bounds :=
  match bounds.x, bounds.y with
  | some bx, some ty =>
      let centerX := bx + bounds.width / 2
      let centerY := ty + bounds.height / 2
      if displays.any (fun d => centerWithin d centerX centerY) then bounds
      else { x := none, y := none, width := defaults.width, height := defaults.height }
  | _, _ =>
      { x := none, y := none, width := defaults.width, height := defaults.height }

/-- C8: `ensureVisibleBounds` returns the fallback size with absent
position when a saved coordinate is absent; otherwise it returns the
saved bounds unchanged exactly when the saved center point lies within
some attached display, and the fallback size with absent position when it
lies within none. -/
theorem ensure_visible_bounds_spec (displays : List DisplayBounds)
    (bounds : Bounds) (defaults : FallbackSize) :
    ((bounds.x = none ∨ bounds.y = none) →
      ensureVisibleBounds displays bounds defaults
        = { x := none, y := none, width := defaults.width,
            height := defaults.height }) ∧
    (∀ bx ty, bounds.x = some bx → bounds.y = some ty →
      ((∃ d ∈ displays,
          centerWithin d (bx + bounds.width / 2) (ty + bounds.height / 2) = true) →
        ensureVisibleBounds displays bounds defaults = bounds) ∧
      ((∀ d ∈ displays,
          centerWithin d (bx + bounds.width / 2) (ty + bounds.height / 2) = false) →
        ensureVisibleBounds displays bounds defaults
          = { x := none, y := none, width := defaults.width,
              height := defaults.height })) := by
  constructor
  · intro h
    rcases hx : bounds.x with _ | bx
    · simp [ensureVisibleBounds, hx]
    · rcases hy : bounds.y with _ | ty
      · simp [ensureVisibleBounds, hx, hy]
      · rcases h with h | h
        · rw [hx] at h
          cases h
        · rw [hy] at h
          cases h
  · intro bx ty hbx hby
    constructor
    · intro hex
      have hany : displays.any
          (fun d => centerWithin d (bx + bounds.width / 2) (ty + bounds.height / 2))
            = true := by
        obtain ⟨d, hd, hcw⟩ := hex
        exact List.any_eq_true.mpr ⟨d, hd, hcw⟩
      simp [ensureVisibleBounds, hbx, hby, hany]
    · intro hall
      have hany : displays.any
          (fun d => centerWithin d (bx + bounds.width / 2) (ty + bounds.height / 2))
            = false := by
        rw [Bool.eq_false_iff]
        intro hcon
        obtain ⟨d, hd, hcw⟩ := List.any_eq_true.mp hcon
        rw [hall d hd] at hcw
        cases hcw
      simp [ensureVisibleBounds, hbx, hby, hany]

/-- The off-screen example from the testable properties: saved bounds at
(5000, 5000) sized 1200x800, one display 1920x1080 at the origin. -/
def savedOffScreen : Bounds :=
  { x := some 5000, y := some 5000, width := 1200, height := 800 }

/-- The single display of the off-screen example. -/
def display1080p : DisplayBounds :=
  { x := 0, y := 0, width := 1920, height := 1080 }

/-- Witness for C8 on the spec's example: the center (5600, 5400) lies in
no display, so the result is the fallback size with absent position. -/
theorem ensure_visible_bounds_spec_witness :
    (∀ d ∈ [display1080p],
      centerWithin d (5000 + savedOffScreen.width / 2)
        (5000 + savedOffScreen.height / 2) = false) ∧
    ensureVisibleBounds [display1080p] savedOffScreen ⟨1200, 800⟩
      = { x := none, y := none, width := 1200, height := 800 } := by
  have hcw : centerWithin display1080p (5000 + savedOffScreen.width / 2)
      (5000 + savedOffScreen.height / 2) = false := by
    unfold centerWithin display1080p savedOffScreen
    refine Bool.and_eq_false_iff.mpr (Or.inl (Bool.and_eq_false_iff.mpr
      (Or.inl (Bool.and_eq_false_iff.mpr (Or.inr ?_)))))
    rw [decide_eq_false_iff_not]
    norm_num
  refine ⟨?_, ?_⟩
  · intro d hd
    rcases List.mem_singleton.mp hd with rfl
    exact hcw
  · exact (((ensure_visible_bounds_spec [display1080p] savedOffScreen
        ⟨1200, 800⟩).2 5000 5000 rfl rfl).2 (by
      intro d hd
      rcases List.mem_singleton.mp hd with rfl
      exact hcw))

end GeminiDesktop
